import Mathlib

/-!
Verification development for the GDG Points Tracker (`src/app.py`).

The file shallowly embeds the points-extraction pipeline of the repository:
the per-participant resolver `get_points` (app.py lines 169-325), the
concurrent batch scheduler `fetch_points_concurrently` (lines 328-405), the
batch endpoints `api_scrape_batch` (lines 749-827) and `api_finalize_results`
(lines 829-927), the weekly-delta computation of `view_participants`
(lines 929-1010) and `refresh_points` (lines 1036-1167), and the
refresh-cooldown query `next_refresh` (lines 1189-1216).

Machine-level conventions: points values are `Nat` (the code only ever
produces non-negative integers), deltas are `Int`, timestamps are `Int`
seconds.  Network and thread nondeterminism is passed in explicitly as
injected outcome sequences.
-/

namespace GDGPointsTracker

/-! ### Python string primitives

Helpers mirroring the exact Python string operations used by `get_points`:
`in` (substring test), `str.lower`, `str.strip`, `str.isdigit`,
`str.replace`, `''.join(filter(str.isdigit, text))` and `int` on a digit
string.  All are structural recursions over `List Char` so that the kernel
can evaluate them on concrete pages. -/

/-- Tests whether `p` occurs at the start of `l` (Python `str.startswith`,
used here only as the inner step of the substring test and of `replace`). -/
def lcLeads : List Char → List Char → Bool
  | [], _ => true
  | _ :: _, [] => false
  | p :: ps, c :: cs => p = c && lcLeads ps cs

/-- Tests whether `pat` occurs somewhere in `l` (Python `pat in s`). -/
def lcContains (pat : List Char) : List Char → Bool
  | [] => pat.isEmpty
  | c :: cs => lcLeads pat (c :: cs) || lcContains pat cs

/-- Python `pat in s` on strings. -/
def strContains (s pat : String) : Bool := lcContains pat.data s.data

/-- Python `str.lower()` (ASCII case folding, which is all the scraped
pages use). -/
def pyLower (s : String) : String := ⟨s.data.map Char.toLower⟩

/-- Python `str.strip()`: drop leading and trailing whitespace. -/
def pyStrip (s : String) : String :=
  ⟨((s.data.dropWhile Char.isWhitespace).reverse.dropWhile Char.isWhitespace).reverse⟩

/-- Python `str.isdigit()`: non-empty and every character a digit. -/
def pyIsDigit (s : String) : Bool := !s.data.isEmpty && s.data.all Char.isDigit

/-- Python `''.join(filter(str.isdigit, text))`: the digit characters of
`s`, in order. -/
def digitsOf (s : String) : String := ⟨s.data.filter Char.isDigit⟩

/-- Python `int` applied to a (non-empty) string of digits. -/
def natOfDigits (s : String) : Nat :=
  s.data.foldl (fun n c => n * 10 + (c.toNat - 48)) 0

/-- One fuelled pass of Python `str.replace`: replaces every non-overlapping
occurrence of `pat` left to right.  The fuel is the length of the subject
string, which suffices because every step consumes at least one character
of the subject when `pat` is non-empty. -/
def lcReplace (pat rep : List Char) : Nat → List Char → List Char
  | _, [] => []
  | 0, cs => cs
  | fuel + 1, c :: cs =>
    if lcLeads pat (c :: cs) && !pat.isEmpty then
      rep ++ lcReplace pat rep fuel ((c :: cs).drop pat.length)
    else
      c :: lcReplace pat rep fuel cs

/-- Python `s.replace(pat, rep)` (all occurrences). -/
def pyReplace (s pat rep : String) : String :=
  ⟨lcReplace pat.data rep.data s.data.length s.data⟩

/-! ### Page model

A `Page` is the projection of the parsed HTML document that the four
extraction strategies of `get_points` (app.py lines 209-300) actually
inspect:

* `profileLeagueStrong`: `get_text(strip=True)` of the first `<strong>`
  inside the first element with class `profile-league`; `none` when the
  container or the `<strong>` tag is missing (lines 213-218).
* `spans`: every `<span>` element in document order, carrying its
  `.string` (`none` when the span has no single string child) and the
  `get_text()` of its parent (`none` when it has no parent) — the data
  consulted by approach 2 (lines 236-244).
* `strNodes`: every text node in document order, carrying its own text,
  its parent's `get_text()` and the `get_text()` of the parent's
  `next_siblings` — the data consulted by approaches 3 and 4
  (lines 247-290). -/

/-- A `<span>` element as seen by approach 2 of `get_points`. -/
structure SpanNode where
  str? : Option String
  parentText : Option String
deriving DecidableEq, Repr

/-- A text node as seen by approaches 3 and 4 of `get_points`. -/
structure StrNode where
  text : String
  parentText : Option String
  siblingTexts : List String
deriving DecidableEq, Repr

/-- The projection of a fetched page inspected by the extraction
strategies. -/
structure Page where
  profileLeagueStrong : Option String
  spans : List SpanNode
  strNodes : List StrNode
deriving DecidableEq, Repr

/-- Approach 1 (app.py lines 212-229): the first `.profile-league`
container's `<strong>` text, with the literal `' points'` suffix removed
and stripped, accepted when it is all digits. -/
def strategy1 (p : Page) : Option Nat :=
  match p.profileLeagueStrong with
  | none => none
  | some strongText =>
    if strongText = "" then none
    else
      let pointsText := pyStrip (pyReplace strongText " points" "")
      if pyIsDigit pointsText then some (natOfDigits pointsText) else none

/-- Approach 2 (app.py lines 236-244): the first all-digit `<span>` whose
parent text mentions `point` (case-insensitively). -/
def strategy2 (p : Page) : Option Nat :=
  let numberSpans := p.spans.filter fun sp =>
    match sp.str? with
    | some s => pyIsDigit (pyStrip s)
    | none => false
  numberSpans.findSome? fun sp =>
    match sp.parentText with
    | some pt =>
      if strContains (pyLower pt) "point" then
        match sp.str? with
        | some s => some (natOfDigits (pyStrip s))
        | none => none
      else none
    | none => none

/-- Approach 3 (app.py lines 247-258): the first text node mentioning
`point` (case-insensitively); the value is `int` of the concatenation of
ALL digit characters of that node's stripped text (the code joins
`filter(str.isdigit, text)`, it does not isolate the number adjacent to
the word `points`). -/
def strategy3 (p : Page) : Option Nat :=
  let pointsElements := p.strNodes.filter fun n =>
    strContains (pyLower n.text) "point"
  pointsElements.findSome? fun n =>
    let digits := digitsOf (pyStrip n.text)
    if digits ≠ "" then some (natOfDigits digits) else none

/-- The keyword list of approach 4 (app.py line 261). -/
def keywords : List String := ["score", "total", "point", "credit", "achievement"]

/-- Approach 4 (app.py lines 260-290): for each keyword in order, for each
text node mentioning it, the digits of the parent text, else the digits of
the first sibling text that has any. -/
def strategy4 (p : Page) : Option Nat :=
  keywords.findSome? fun keyword =>
    (p.strNodes.filter fun n => strContains (pyLower n.text) keyword).findSome? fun n =>
      match n.parentText with
      | none => none
      | some parentText =>
        let digits := digitsOf parentText
        if digits ≠ "" then some (natOfDigits digits)
        else n.siblingTexts.findSome? fun siblingText =>
          let d := digitsOf siblingText
          if d ≠ "" then some (natOfDigits d) else none

/-- The parsing block of `get_points` (app.py lines 209-300): the four
approaches in fixed priority order, first success wins, falling back to
the value `1` when none succeeds (line 300). -/
def extractPoints (p : Page) : Nat :=
  ((((strategy1 p).orElse fun _ => strategy2 p).orElse fun _ =>
      strategy3 p).orElse fun _ => strategy4 p).getD 1

/-! ### The resolver `get_points` (app.py lines 169-325)

The network is injected as a function from the attempt index (the value of
the Python `retries` counter at that attempt) to the outcome of that
fetch.  Every handler of the Python code is represented:

* `timeout`  — `requests.Timeout` (lines 306-311): retried;
* `reqError` — `requests.RequestException`, including bad HTTP status via
  `raise_for_status` (lines 313-318): retried;
* `otherError` — any other exception in the outer `try` (lines 320-322):
  returns the fallback at once;
* `emptyBody` — empty `response.content` raises `ValueError` (lines
  199-201), caught by the same generic handler: returns the fallback;
* `parseExn` — an exception inside the parsing block (lines 302-304):
  returns the fallback;
* `ok page` — a fetched page, handed to the extraction strategies. -/

/-- Outcome of one network attempt of `get_points`. -/
inductive FetchResult where
  | timeout
  | reqError
  | otherError
  | emptyBody
  | parseExn
  | ok (page : Page)
deriving DecidableEq

/-- The `max_retries` policy value of `get_points` (app.py line 171). -/
def maxRetries : Nat := 3

/-- The invalid-link test of `get_points` (app.py line 177):
`not link or link == 'INVALID_PROFILE_URL' or pd.isna(link) or
'INVALID_PROFILE_URL' in link`.  An absent (`None`/NaN) reference is
`none`. -/
def invalidLink : Option String → Bool
  | none => true
  | some s => s = "" || s = "INVALID_PROFILE_URL" || strContains s "INVALID_PROFILE_URL"

/-- The `while retries <= max_retries` loop of `get_points` (app.py lines
174-325).  The second argument is the current value of the `retries`
counter; the third is the remaining number of loop iterations
(`max_retries + 1 - retries`), on which the recursion is structural.
Returns the resolved points value together with the number of network
attempts performed.  The fuel-0 case covers both the post-loop fallback
(line 325) and the `retries > max_retries` returns inside the handlers
(lines 311, 318), all of which yield `1` having made no further
attempt. -/
def getPointsLoop (link : Option String) (fetch : Nat → FetchResult) :
    Nat → Nat → Nat × Nat
  | _, 0 => (1, 0)
  | retries, fuel + 1 =>
    if invalidLink link then (1, 0)
    else
      match fetch retries with
      | .ok page => (extractPoints page, 1)
      | .emptyBody => (1, 1)
      | .parseExn => (1, 1)
      | .otherError => (1, 1)
      | .timeout =>
        ((getPointsLoop link fetch (retries + 1) fuel).1,
         (getPointsLoop link fetch (retries + 1) fuel).2 + 1)
      | .reqError =>
        ((getPointsLoop link fetch (retries + 1) fuel).1,
         (getPointsLoop link fetch (retries + 1) fuel).2 + 1)

/-- `get_points(link)` under the injected fetch outcomes: the resolved
value and the number of network attempts made. -/
def getPoints (link : Option String) (fetch : Nat → FetchResult) : Nat × Nat :=
  getPointsLoop link fetch 0 (maxRetries + 1)

/-! ### The concurrent scheduler `fetch_points_concurrently`
(app.py lines 328-405)

The thread pool is abstracted as the list of future completions in
completion order, each carrying the participant id of the submitted task
and how `future.result(timeout=20)` behaved for it (app.py lines
371-388).  A task whose future never reaches the `as_completed` loop (the
outer `except` of line 389) simply has no completion entry; the safety
loop of lines 400-403 then fills it in. -/

/-- How one submitted task completed. -/
inductive TaskOutcome where
  | ok (points : Nat)
  | timedOut
  | errored
deriving DecidableEq

/-- The value stored in `results` for a completion: the returned points on
success, and the default `1` on a future timeout (line 380) or an
unexpected error (line 388). -/
def taskValue : TaskOutcome → Nat
  | .ok n => n
  | .timedOut => 1
  | .errored => 1

/-- Python dict assignment `results[k] = v`. -/
def mapInsert (m : Nat → Option Nat) (k : Nat) (v : Nat) : Nat → Option Nat :=
  fun k' => if k' = k then some v else m k'

/-- The `as_completed` loop (app.py lines 371-388): fold the completions
into the `results` dict. -/
def collectResults (completions : List (Nat × TaskOutcome)) : Nat → Option Nat :=
  completions.foldl (fun m c => mapInsert m c.1 (taskValue c.2)) fun _ => none

/-- The safety loop (app.py lines 400-403): every submitted participant
missing from `results` gets the default value `1`. -/
def ensureAllResults (ids : List Nat) (m : Nat → Option Nat) : Nat → Option Nat :=
  ids.foldl
    (fun m i =>
      match m i with
      | some _ => m
      | none => mapInsert m i 1)
    m

/-- `fetch_points_concurrently` for the submitted participant ids, under
the injected completion sequence: the final `results` dict. -/
def fetch_points_concurrently (ids : List Nat)
    (completions : List (Nat × TaskOutcome)) : Nat → Option Nat :=
  ensureAllResults ids (collectResults completions)

/-! ### Batch processing

`api_scrape_batch` (app.py lines 749-827) and the batch loop of
`refresh_points` (app.py lines 1081-1108). -/

/-- How one whole batch went: either its per-participant result map was
produced, or its processing raised. -/
inductive BatchOutcome where
  | ok (results : List (Nat × Nat))
  | exn
deriving DecidableEq

/-- Result-map (Python dict) representation: successive `update` calls
concatenate bindings, and a lookup takes the last binding of the key. -/
def mlookup (m : List (Nat × Nat)) (k : Nat) : Option Nat :=
  (m.reverse.find? fun b => b.1 = k).map Prod.snd

/-- The per-batch loop of `refresh_points` (app.py lines 1081-1103):
each batch in order; a successful batch's results are merged into
`all_results` via `update`; a raising batch increments `error_count` and
the loop `continue`s to the next batch.  Returns the merged map and the
error count. -/
def refreshBatchLoop (outcomes : List BatchOutcome) : List (Nat × Nat) × Nat :=
  outcomes.foldl
    (fun acc b =>
      match b with
      | .ok r => (acc.1 ++ r, acc.2)
      | .exn => (acc.1, acc.2 + 1))
    ([], 0)

/-- The all-batches-failed check of `refresh_points` (app.py line 1106):
only when every batch errored is the refresh aborted. -/
def allBatchesFailed (outcomes : List BatchOutcome) : Bool :=
  (refreshBatchLoop outcomes).2 = outcomes.length

/-- The observable effect of `api_scrape_batch` on one batch (app.py lines
798-827): the stored batch status, the `success` flag of the JSON
response, and whether the caller may advance to the next batch (`true` on
success; `canContinue: True` on failure, line 826). -/
def api_scrape_batch_report : BatchOutcome → String × Bool × Bool
  | .ok _ => ("completed", true, true)
  | .exn => ("failed", false, true)

/-- The per-participant loop of `api_scrape_batch` (app.py lines 772-796)
with every participant present in the database: a scrape that raises is
recorded with the default value `1` (line 796). -/
def scrape_batch_results (ids : List Nat) (scrape : Nat → Except Unit Nat) :
    List (Nat × Nat) :=
  ids.map fun pid =>
    (pid,
     match scrape pid with
     | .ok n => n
     | .error _ => 1)

/-! ### Finalization `api_finalize_results` (app.py lines 829-927)

Modelled effects, with every participant of the result map present in the
database: one `PointsHistory` row appended per entry of `state['results']`
(lines 854-858), the job status set to `completed` (line 893), and the
display rows with `weekly_points = 'N/A (First upload)'` (lines 861-867).
The sort of the display rows and the summary statistics are outside the
claims and are not modelled. -/

/-- Job status values of the in-memory `processing_state`. -/
inductive JobStatus where
  | pending
  | validated
  | parsed
  | error
  | completed
deriving DecidableEq

/-- The part of one `processing_state` entry that finalization reads and
writes: the accumulated result map and the status. -/
structure JobState where
  results : List (Nat × Nat)
  status : JobStatus
deriving DecidableEq

/-- The append-only `points_history` table: `(participant_id, points)`
rows in insertion order. -/
structure Ledger where
  history : List (Nat × Nat)
deriving DecidableEq

/-- One row of the finalization response (app.py lines 861-867). -/
structure FinalizeRow where
  pid : Nat
  current_points : Nat
  weekly_points : String
deriving DecidableEq

/-- `api_finalize_results`: appends one history row per result-map entry,
marks the job `completed`, and reports each participant with
`weekly_points = 'N/A (First upload)'`.  The endpoint performs no check of
the job's current status before doing so. -/
def api_finalize_results (st : JobState) (db : Ledger) :
    JobState × Ledger × List FinalizeRow :=
  ({ st with status := .completed },
   { history := db.history ++ st.results },
   st.results.map fun r =>
     { pid := r.1, current_points := r.2, weekly_points := "N/A (First upload)" })

/-! ### Weekly delta -/

/-- The delta computation of `view_participants` (app.py lines 950-963) on
the participant's history sorted most-recent-first: returns
`(previous_points, weekly_change)`.  With at least two records the change
is latest minus previous; with exactly one record the change is that
record's value; with no records both are zero. -/
def viewWeeklyChange : List Int → Int × Int
  | current :: previous :: _ => (previous, current - previous)
  | [current] => (0, current)
  | [] => (0, 0)

/-- The delta computation of `refresh_points` (app.py lines 1118-1120):
the freshly resolved points minus the stored `current_points`. -/
def refreshWeeklyPoints (currentPointsField newPoints : Int) : Int :=
  newPoints - currentPointsField

/-! ### Refresh cooldown `next_refresh` (app.py lines 1189-1216)

Timestamps are seconds; the 7-day cooldown is `7 * 86400` seconds.  The
result is `(can_refresh, time_remaining)`, where `time_remaining` is
reported only on the cannot-refresh branch (the code formats it as days,
hours and minutes; the model keeps it in seconds). -/

/-- Length of the cooldown window in seconds. -/
def cooldownSeconds : Int := 7 * 86400

/-- The `/next_refresh` query: no recorded refresh returns
`can_refresh = true` (line 1196); a next-refresh date strictly in the past
returns `can_refresh = true` (lines 1201-1202); otherwise
`can_refresh = false` with the remaining time (lines 1205-1216). -/
def nextRefreshQuery (lastRefresh : Option Int) (now : Int) : Bool × Option Int :=
  match lastRefresh with
  | none => (true, none)
  | some last =>
    if last + cooldownSeconds < now then (true, none)
    else (false, some (last + cooldownSeconds - now))

/-! ### Helper lemmas -/

/-- Unfolding of one iteration of the `get_points` retry loop. -/
theorem getPointsLoop_step (link : Option String) (fetch : Nat → FetchResult)
    (retries fuel : Nat) :
    getPointsLoop link fetch retries (fuel + 1) =
      if invalidLink link then (1, 0)
      else
        match fetch retries with
        | .ok page => (extractPoints page, 1)
        | .emptyBody => (1, 1)
        | .parseExn => (1, 1)
        | .otherError => (1, 1)
        | .timeout =>
          ((getPointsLoop link fetch (retries + 1) fuel).1,
           (getPointsLoop link fetch (retries + 1) fuel).2 + 1)
        | .reqError =>
          ((getPointsLoop link fetch (retries + 1) fuel).1,
           (getPointsLoop link fetch (retries + 1) fuel).2 + 1) := rfl

/-- The retry loop performs at most `fuel` network attempts. -/
theorem getPointsLoop_attempts_le (link : Option String) (fetch : Nat → FetchResult) :
    ∀ fuel retries, (getPointsLoop link fetch retries fuel).2 ≤ fuel := by
  intro fuel
  induction fuel with
  | zero => intro retries; exact Nat.le_refl 0
  | succ n ih =>
    intro retries
    rw [getPointsLoop_step]
    by_cases hinv : invalidLink link
    · simp [hinv]
    · simp only [hinv, if_false]
      cases fetch retries with
      | ok page => exact Nat.le_add_left 1 n
      | emptyBody => exact Nat.le_add_left 1 n
      | parseExn => exact Nat.le_add_left 1 n
      | otherError => exact Nat.le_add_left 1 n
      | timeout => exact Nat.succ_le_succ (ih (retries + 1))
      | reqError => exact Nat.succ_le_succ (ih (retries + 1))

/-- When every attempt fails transiently, the loop burns all its fuel and
falls back to `1`. -/
theorem getPointsLoop_all_transient (link : Option String) (fetch : Nat → FetchResult)
    (hinv : invalidLink link = false)
    (htr : ∀ n, fetch n = .timeout ∨ fetch n = .reqError) :
    ∀ fuel retries, getPointsLoop link fetch retries fuel = (1, fuel) := by
  intro fuel
  induction fuel with
  | zero => intro retries; rfl
  | succ n ih =>
    intro retries
    rw [getPointsLoop_step]
    rcases htr retries with h | h <;>
      simp [hinv, h, ih (retries + 1)]

/-- A key absent from the completion list is untouched by the
`as_completed` fold. -/
theorem collect_foldl_not_mem (cs : List (Nat × TaskOutcome)) :
    ∀ (m : Nat → Option Nat) (i : Nat), i ∉ cs.map Prod.fst →
      cs.foldl (fun m c => mapInsert m c.1 (taskValue c.2)) m i = m i := by
  induction cs with
  | nil => intro m i _; rfl
  | cons c rest ih =>
    intro m i hi
    simp only [List.map_cons, List.mem_cons, not_or] at hi
    rw [List.foldl_cons, ih _ i hi.2]
    simp [mapInsert, hi.1]

/-- With distinct completion keys, the `as_completed` fold stores each
completed task's value. -/
theorem collect_foldl_mem (cs : List (Nat × TaskOutcome)) :
    ∀ (m : Nat → Option Nat) (i : Nat) (o : TaskOutcome),
      (cs.map Prod.fst).Nodup → (i, o) ∈ cs →
      cs.foldl (fun m c => mapInsert m c.1 (taskValue c.2)) m i = some (taskValue o) := by
  induction cs with
  | nil => intro m i o _ h; cases h
  | cons c rest ih =>
    intro m i o hnd hmem
    simp only [List.map_cons, List.nodup_cons] at hnd
    rcases List.mem_cons.mp hmem with h | h
    · subst h
      rw [List.foldl_cons, collect_foldl_not_mem rest _ i hnd.1]
      simp [mapInsert]
    · rw [List.foldl_cons]
      exact ih _ i o hnd.2 h

/-- The safety loop never overwrites an existing entry. -/
theorem ensureAll_keeps (ids : List Nat) :
    ∀ (m : Nat → Option Nat) (i : Nat) (v : Nat), m i = some v →
      ensureAllResults ids m i = some v := by
  induction ids with
  | nil => intro m i v h; exact h
  | cons j rest ih =>
    intro m i v h
    show ensureAllResults rest (match m j with
      | some _ => m | none => mapInsert m j 1) i = some v
    cases hj : m j with
    | some w => simpa [hj] using ih m i v h
    | none =>
      refine ih _ i v ?_
      simp only [hj]
      have hij : i ≠ j := fun he => by rw [he, hj] at h; exact Option.noConfusion h
      simpa [mapInsert, hij] using h

/-- A key outside the submitted list is untouched by the safety loop. -/
theorem ensureAll_not_mem (ids : List Nat) :
    ∀ (m : Nat → Option Nat) (i : Nat), i ∉ ids →
      ensureAllResults ids m i = m i := by
  induction ids with
  | nil => intro m i _; rfl
  | cons j rest ih =>
    intro m i hi
    simp only [List.mem_cons, not_or] at hi
    show ensureAllResults rest (match m j with
      | some _ => m | none => mapInsert m j 1) i = m i
    cases hj : m j with
    | some w => simpa [hj] using ih m i hi.2
    | none =>
      rw [ih _ i hi.2]
      simp [hj, mapInsert, hi.1]

/-- A submitted participant with no stored result gets the default `1`
from the safety loop. -/
theorem ensureAll_mem_none (ids : List Nat) :
    ∀ (m : Nat → Option Nat) (i : Nat), i ∈ ids → m i = none →
      ensureAllResults ids m i = some 1 := by
  induction ids with
  | nil => intro m i hi _; cases hi
  | cons j rest ih =>
    intro m i hi h
    show ensureAllResults rest (match m j with
      | some _ => m | none => mapInsert m j 1) i = some 1
    by_cases hij : i = j
    · subst hij
      rw [h]
      exact ensureAll_keeps rest _ i 1 (by simp [mapInsert])
    · rcases List.mem_cons.mp hi with h' | h'
      · exact absurd h' hij
      · cases hj : m j with
        | some w => simpa [hj] using ih m i h' h
        | none => exact ih _ i h' (by simpa [mapInsert, hij] using h)

/-! ### Claims -/

/-- C1: the spec requires finalization to be idempotent ("re-invoking
finalization on an already-Completed job must not duplicate
PointsRecords"), but `api_finalize_results` checks nothing about the
job's status: finalizing the job `{results = {1 ↦ 5}}` once appends the
history row `(1, 5)` and marks the job completed, and invoking
finalization a second time on that completed job appends the row again,
leaving two `PointsHistory` rows for the single participant. -/
theorem finalize_twice_appends_again :
    (api_finalize_results { results := [(1, 5)], status := .parsed }
        { history := [] }).1.status = JobStatus.completed ∧
    (api_finalize_results { results := [(1, 5)], status := .parsed }
        { history := [] }).2.1.history = [(1, 5)] ∧
    (api_finalize_results
        (api_finalize_results { results := [(1, 5)], status := .parsed }
          { history := [] }).1
        (api_finalize_results { results := [(1, 5)], status := .parsed }
          { history := [] }).2.1).2.1.history = [(1, 5), (1, 5)] := by
  decide

/-- C2: `get_points` is total — for every profile reference and every
sequence of injected fetch outcomes it returns an integer, having made at
most `maxRetries + 1` network attempts. -/
theorem get_points_total_bounded (link : Option String) (fetch : Nat → FetchResult) :
    ∃ pts attempts, getPoints link fetch = (pts, attempts) ∧
      attempts ≤ maxRetries + 1 :=
  ⟨(getPoints link fetch).1, (getPoints link fetch).2, rfl,
    getPointsLoop_attempts_le link fetch (maxRetries + 1) 0⟩

/-- C3: a profile reference that is absent, empty, or contains the
`INVALID_PROFILE_URL` placeholder makes `get_points` return the fallback
value `1` immediately, with zero network attempts, whatever the network
would have answered. -/
theorem get_points_invalid_no_fetch (link : Option String) (fetch : Nat → FetchResult)
    (h : link = none ∨ link = some "" ∨
      ∃ s, link = some s ∧ strContains s "INVALID_PROFILE_URL" = true) :
    getPoints link fetch = (1, 0) := by
  have hinv : invalidLink link = true := by
    rcases h with h | h | ⟨s, hs, hc⟩
    · rw [h]; rfl
    · rw [h]; rfl
    · rw [hs]; simp [invalidLink, hc]
  rw [getPoints, getPointsLoop_step, if_pos hinv]

/-- C3 witness: a concrete placeholder reference resolves to `(1, 0)` even
against a network that would always time out. -/
theorem get_points_invalid_no_fetch_witness :
    getPoints (some "INVALID_PROFILE_URL_John_Doe") (fun _ => FetchResult.timeout)
      = (1, 0) :=
  get_points_invalid_no_fetch _ _ (Or.inr (Or.inr ⟨_, rfl, by decide⟩))

/-- C4: extraction applies its strategies in fixed priority order — on any
page where both strategy 1 (the `.profile-league` strong text) and
strategy 3 (a `points` text node) succeed, `extractPoints` returns
strategy 1's value. -/
theorem extract_priority_order (p : Page) (v w : Nat)
    (h1 : strategy1 p = some v) (_h3 : strategy3 p = some w) :
    extractPoints p = v := by
  simp [extractPoints, h1]

/-- C4 witness: a concrete page matching strategy 1 (value 25) and
strategy 3 (value 99) extracts to 25. -/
theorem extract_priority_order_witness :
    strategy1 { profileLeagueStrong := some "25 points", spans := [],
                strNodes := [⟨"99 points", none, []⟩] } = some 25 ∧
    strategy3 { profileLeagueStrong := some "25 points", spans := [],
                strNodes := [⟨"99 points", none, []⟩] } = some 99 ∧
    extractPoints { profileLeagueStrong := some "25 points", spans := [],
                    strNodes := [⟨"99 points", none, []⟩] } = 25 :=
  ⟨by decide, by decide, extract_priority_order _ 25 99 (by decide) (by decide)⟩

/-- C5: a batch that fails entirely does not abort the job — with batch 2
of 3 raising, the loop of `refresh_points` still merges the results of
batches 1 and 3 into the final map, counts one error (which is not the
all-batches-failed abort condition), and `api_scrape_batch` reports the
failed batch with status `failed` and `canContinue = true`. -/
theorem batch_failure_does_not_abort (r1 r3 : List (Nat × Nat)) :
    refreshBatchLoop [.ok r1, .exn, .ok r3] = (r1 ++ r3, 1) ∧
    allBatchesFailed [.ok r1, .exn, .ok r3] = false ∧
    api_scrape_batch_report .exn = ("failed", false, true) := by
  refine ⟨?_, ?_, rfl⟩
  · simp [refreshBatchLoop]
  · simp [allBatchesFailed, refreshBatchLoop]

/-- C6 counterexample: a participant with exactly one history record — so
with no previous record — does not get a zero weekly delta from
`view_participants`; the code reports the full latest value instead. -/
theorem weekly_delta_single_record_ce :
    viewWeeklyChange [55] = (0, 55) ∧ (viewWeeklyChange [55]).2 ≠ 0 := by
  decide

/-- C6 amended: `view_participants` computes the weekly delta as latest
minus previous when at least two records exist (prior 40, new 55 gives
15), reports the full latest value when exactly one record exists, and
zero when no record exists; `refresh_points` computes new minus stored
current points (40 to 55 gives 15); and the first-upload finalization
reports `weekly_points = 'N/A (First upload)'`. -/
theorem weekly_delta_amended (c p : Int) (rest : List Int) :
    viewWeeklyChange (c :: p :: rest) = (p, c - p) ∧
    viewWeeklyChange [c] = (0, c) ∧
    viewWeeklyChange [] = (0, 0) ∧
    viewWeeklyChange [55, 40] = (40, 15) ∧
    refreshWeeklyPoints 40 55 = 15 ∧
    (api_finalize_results { results := [(1, 55)], status := .parsed }
        { history := [] }).2.2
      = [{ pid := 1, current_points := 55, weekly_points := "N/A (First upload)" }] :=
  ⟨rfl, rfl, rfl, by decide, by decide, by decide⟩

/-- C8 counterexample: at exactly seven days after the last refresh the
claim says `canRefresh = true`, but `next_refresh` compares with a strict
`<` and still reports `can_refresh = false` (with zero time remaining). -/
theorem next_refresh_boundary_ce :
    (604800 : Int) - 0 ≥ 7 * 86400 ∧
    (nextRefreshQuery (some 0) 604800).1 = false := by
  decide

/-- C8 amended: `next_refresh` returns `can_refresh = true` when no
refresh exists or strictly more than 7 days have passed; when `now` is
within (inclusive) 7 days of the last refresh it returns
`can_refresh = false` with `time_remaining = (lastRefresh + 7 days) - now`
(so 3 days after a refresh the remaining time is 4 days, and at exactly 7
days it is zero with `can_refresh` still false). -/
theorem next_refresh_cooldown (last now : Int) :
    (now - last ≤ 7 * 86400 →
      nextRefreshQuery (some last) now = (false, some (last + 7 * 86400 - now))) ∧
    (7 * 86400 < now - last → nextRefreshQuery (some last) now = (true, none)) ∧
    nextRefreshQuery none now = (true, none) := by
  refine ⟨fun h => ?_, fun h => ?_, rfl⟩
  · rw [nextRefreshQuery, cooldownSeconds, if_neg (by omega)]
  · rw [nextRefreshQuery, cooldownSeconds, if_pos (by omega)]

/-- C8 witness: three days after a refresh the query denies with four days
remaining; eight days after, it allows; with no refresh recorded, it
allows. -/
theorem next_refresh_cooldown_witness :
    nextRefreshQuery (some 0) (3 * 86400) = (false, some (4 * 86400)) ∧
    nextRefreshQuery (some 0) (8 * 86400) = (true, none) ∧
    nextRefreshQuery none 12345 = (true, none) := by
  refine ⟨?_, (next_refresh_cooldown 0 (8 * 86400)).2.1 (by decide),
    (next_refresh_cooldown 0 12345).2.2⟩
  rw [(next_refresh_cooldown 0 (3 * 86400)).1 (by decide)]
  decide

/-- C9 counterexample: the first `points`-containing text node
`"Level 2: 55 points"` has the number 55 adjacent to the word `points`
but another digit elsewhere; strategy 3 concatenates all digits and
extraction returns 255, not 55. -/
theorem strategy3_concat_digits_ce :
    extractPoints { profileLeagueStrong := none, spans := [],
                    strNodes := [⟨"Level 2: 55 points", none, []⟩] } = 255 ∧
    extractPoints { profileLeagueStrong := none, spans := [],
                    strNodes := [⟨"Level 2: 55 points", none, []⟩] } ≠ 55 := by
  decide

/-- C9 amended: when strategies 1 and 2 fail, extraction returns the
number formed by concatenating ALL digit characters of the first
`point`-containing text node (in document order), provided that node has
any digits; in particular it returns `n` exactly when the digits of that
node are precisely the digits of `n`. -/
theorem strategy3_first_match_digits (p : Page) (nd : StrNode) (rest : List StrNode)
    (h1 : strategy1 p = none) (h2 : strategy2 p = none)
    (hfirst : (p.strNodes.filter fun n => strContains (pyLower n.text) "point")
      = nd :: rest)
    (hdig : digitsOf (pyStrip nd.text) ≠ "") :
    extractPoints p = natOfDigits (digitsOf (pyStrip nd.text)) := by
  have h3 : strategy3 p = some (natOfDigits (digitsOf (pyStrip nd.text))) := by
    rw [strategy3]
    rw [hfirst, List.findSome?_cons]
    simp [hdig]
  simp [extractPoints, h1, h2, h3]

/-- C9 witness: a page whose only `points` text node is `"55 points"`
extracts to 55. -/
theorem strategy3_first_match_digits_witness :
    extractPoints { profileLeagueStrong := none, spans := [],
                    strNodes := [⟨"55 points", none, []⟩] } = 55 :=
  (strategy3_first_match_digits _ ⟨"55 points", none, []⟩ []
    (by decide) (by decide) (by decide) (by decide)).trans (by decide)

/-- C7: the concurrent scheduler drops no participant — whatever subset of
the submitted tasks completes (in any order) and however each completed,
the final `results` dict of `fetch_points_concurrently` has exactly one
entry per submitted participant id and no others: the returned points for
a task that completed normally, and the fallback `1` for a task whose
future timed out, errored, or never completed at all. -/
theorem fetch_concurrently_no_drop (ids : List Nat) (cs : List (Nat × TaskOutcome))
    (hsub : ∀ c ∈ cs, c.1 ∈ ids) (hnd : (cs.map Prod.fst).Nodup) :
    (∀ i ∈ ids, ∃ v, fetch_points_concurrently ids cs i = some v) ∧
    (∀ i, i ∉ ids → fetch_points_concurrently ids cs i = none) ∧
    (∀ i n, (i, TaskOutcome.ok n) ∈ cs → fetch_points_concurrently ids cs i = some n) ∧
    (∀ i, ((i, TaskOutcome.timedOut) ∈ cs ∨ (i, TaskOutcome.errored) ∈ cs) →
      fetch_points_concurrently ids cs i = some 1) ∧
    (∀ i ∈ ids, (∀ o, (i, o) ∉ cs) → fetch_points_concurrently ids cs i = some 1) := by
  have hkey : ∀ i, i ∉ ids → i ∉ cs.map Prod.fst := by
    intro i hi hk
    rcases List.mem_map.mp hk with ⟨c, hc, hci⟩
    exact hi (hci ▸ hsub c hc)
  refine ⟨?_, ?_, ?_, ?_, ?_⟩
  · intro i hi
    cases hc : collectResults cs i with
    | some v =>
      exact ⟨v, ensureAll_keeps ids _ i v hc⟩
    | none =>
      exact ⟨1, ensureAll_mem_none ids _ i hi hc⟩
  · intro i hi
    rw [fetch_points_concurrently, ensureAll_not_mem ids _ i hi]
    exact collect_foldl_not_mem cs _ i (hkey i hi)
  · intro i n hmem
    exact ensureAll_keeps ids _ i n (collect_foldl_mem cs _ i _ hnd hmem)
  · intro i hmem
    rcases hmem with h | h
    · exact ensureAll_keeps ids _ i 1 (collect_foldl_mem cs _ i _ hnd h)
    · exact ensureAll_keeps ids _ i 1 (collect_foldl_mem cs _ i _ hnd h)
  · intro i hi hnone
    refine ensureAll_mem_none ids _ i hi ?_
    refine collect_foldl_not_mem cs _ i ?_
    intro hk
    rcases List.mem_map.mp hk with ⟨c, hc, hci⟩
    exact hnone c.2 (by rw [← hci]; exact hc)

/-- C7 witness: three submitted participants, of which one completed
normally with 7 points, one's future timed out, and one never completed:
each has exactly one entry (7, 1, 1 respectively) and an unsubmitted id
has none. -/
theorem fetch_concurrently_no_drop_witness :
    fetch_points_concurrently [10, 20, 30] [(20, .timedOut), (10, .ok 7)] 10 = some 7 ∧
    fetch_points_concurrently [10, 20, 30] [(20, .timedOut), (10, .ok 7)] 20 = some 1 ∧
    fetch_points_concurrently [10, 20, 30] [(20, .timedOut), (10, .ok 7)] 30 = some 1 ∧
    fetch_points_concurrently [10, 20, 30] [(20, .timedOut), (10, .ok 7)] 40 = none := by
  have h := fetch_concurrently_no_drop [10, 20, 30] [(20, .timedOut), (10, .ok 7)]
    (by decide) (by decide)
  refine ⟨h.2.2.1 10 7 (by decide), h.2.2.2.1 20 (Or.inl (by decide)), ?_, ?_⟩
  · refine h.2.2.2.2 30 (by decide) ?_
    intro o
    simp [List.mem_cons]
  · exact h.2.1 40 (by decide)

/-- C10 counterexample: the resolved value `0` can appear in a result
map — a page whose `.profile-league` strong text reads `"0 points"`
parses successfully to `0` (this is not a failure path), and a task
completing with that value stores `0` in the scheduler's `results`
dict. -/
theorem resolved_zero_possible_ce :
    (getPoints (some "https://profiles.example/u/1")
      (fun _ => FetchResult.ok { profileLeagueStrong := some "0 points",
                                 spans := [], strNodes := [] })).1 = 0 ∧
    collectResults [(7, TaskOutcome.ok 0)] 7 = some 0 := by
  constructor
  · decide
  · rfl

/-- C10 amended: on every failure path the returned fallback value is
exactly the integer `1`, never `0` — invalid placeholder reference, parse
failure after all four strategies, parsing exception, empty response,
unexpected fetch error, retry exhaustion on timeouts and request errors,
future-level timeout or error in the concurrent scheduler, a task that
never completed, and a scrape exception in `api_scrape_batch` — so no
failure ever contributes `0` to a result map (a successful parse of a
page genuinely showing zero points still can). -/
theorem fallback_value_is_one (link : Option String) (fetch : Nat → FetchResult)
    (p : Page) (ids : List Nat) (scrape : Nat → Except Unit Nat) (pid : Nat) :
    (invalidLink link = true → getPoints link fetch = (1, 0)) ∧
    (strategy1 p = none → strategy2 p = none → strategy3 p = none →
      strategy4 p = none → extractPoints p = 1) ∧
    (invalidLink link = false → fetch 0 = .parseExn → getPoints link fetch = (1, 1)) ∧
    (invalidLink link = false → fetch 0 = .emptyBody → getPoints link fetch = (1, 1)) ∧
    (invalidLink link = false → fetch 0 = .otherError → getPoints link fetch = (1, 1)) ∧
    (invalidLink link = false → (∀ n, fetch n = .timeout ∨ fetch n = .reqError) →
      getPoints link fetch = (1, maxRetries + 1)) ∧
    taskValue .timedOut = 1 ∧
    taskValue .errored = 1 ∧
    (pid ∈ ids → scrape pid = .error () → (pid, 1) ∈ scrape_batch_results ids scrape) ∧
    (∀ i ∈ ids, fetch_points_concurrently ids [] i = some 1) := by
  refine ⟨?_, ?_, ?_, ?_, ?_, ?_, rfl, rfl, ?_, ?_⟩
  · intro hinv
    rw [getPoints, getPointsLoop_step, if_pos hinv]
  · intro h1 h2 h3 h4
    simp [extractPoints, h1, h2, h3, h4]
  · intro hinv h0
    rw [getPoints, getPointsLoop_step, if_neg (by simp [hinv]), h0]
  · intro hinv h0
    rw [getPoints, getPointsLoop_step, if_neg (by simp [hinv]), h0]
  · intro hinv h0
    rw [getPoints, getPointsLoop_step, if_neg (by simp [hinv]), h0]
  · intro hinv htr
    exact getPointsLoop_all_transient link fetch hinv htr (maxRetries + 1) 0
  · intro hpid herr
    refine List.mem_map.mpr ⟨pid, hpid, ?_⟩
    rw [herr]
  · intro i hi
    exact ensureAll_mem_none ids _ i hi rfl

/-- C10 amended witness: each failure path evaluated at a concrete input
yields exactly `1`. -/
theorem fallback_value_is_one_witness :
    getPoints (some "INVALID_PROFILE_URL") (fun _ => .ok ⟨none, [], []⟩) = (1, 0) ∧
    extractPoints ⟨none, [], []⟩ = 1 ∧
    getPoints (some "https://u") (fun _ => .parseExn) = (1, 1) ∧
    getPoints (some "https://u") (fun _ => .timeout) = (1, 4) ∧
    taskValue .timedOut = 1 ∧
    scrape_batch_results [3] (fun _ => .error ()) = [(3, 1)] ∧
    fetch_points_concurrently [3] [] 3 = some 1 := by
  have h := fun fetch => fallback_value_is_one (some "https://u") fetch
    ⟨none, [], []⟩ [3] (fun _ => .error ()) 3
  refine ⟨?_, ?_, ?_, ?_, (h fun _ => .timeout).2.2.2.2.2.2.1, ?_, ?_⟩
  · exact (fallback_value_is_one (some "INVALID_PROFILE_URL")
      (fun _ => .ok ⟨none, [], []⟩) ⟨none, [], []⟩ [3] (fun _ => .error ()) 3).1
      (by decide)
  · exact (h fun _ => .parseExn).2.1 (by decide) (by decide) (by decide) (by decide)
  · exact (h fun _ => .parseExn).2.2.1 (by decide) rfl
  · exact (h fun _ => .timeout).2.2.2.2.2.1 (by decide) (fun n => Or.inl rfl)
  · have := (h fun _ => .timeout).2.2.2.2.2.2.2.2.1 (by decide) rfl
    revert this
    decide
  · exact (h fun _ => .timeout).2.2.2.2.2.2.2.2.2 3 (by decide)

end GDGPointsTracker
